import Mathlib

/-!
Verification development for the bybit-p2p-monitor ETL pipeline.

The definitions below are a shallow embedding of the TypeScript source:

* `services/p2p.service.ts` (embedded in `README.md`): `P2PService.parseValidDate`,
  `P2PService.processAndStoreP2PData`, `P2PService.upsertDimensionData`,
  `P2PService.insertFactData`, `P2PService.getMarketSummary`,
  `P2PService.cleanupOldData`;
* `models/p2p_offer.model.ts`, `models/payment_method.model.ts`,
  `models/trading_preferences.model.ts`, `models/p2p_user.model.ts`,
  `models/symbol_info.model.ts`, `models/asset.model.ts`: the data-access layer,
  modelled as operations on in-memory table contents with the SQL semantics of
  the statements they issue (`INSERT`, `INSERT OR IGNORE`, `INSERT OR REPLACE`,
  `DELETE ... WHERE fetch_time < ?`);
* `shared/constants.ts`: `TRADE_SIDE`, `PAYMENT_METHODS`.

Modelling conventions:
* JavaScript numbers are modelled as `Option ℚ` where `none` stands for `NaN`
  (decimal values are taken exactly; IEEE-754 rounding is not modelled).
  Division is only used by the source behind guards that make the denominator
  positive; the model returns the `NaN` marker on a zero denominator.
* Timestamps (`Date` values) are epoch milliseconds as `Int`; a `Date` is valid
  iff its absolute millisecond value is at most 8.64e15.
* Upstream id fields (`id`, `accountId`, `userId`) are strings converted with
  `BigInt(...)` in the source; the model carries them as integers (the
  conversion is assumed to succeed on the numeric ids the API supplies).
-/

set_option linter.unusedVariables false
set_option maxRecDepth 8192

namespace BybitP2P

/-! ### JavaScript number primitives -/

/-- A JavaScript `number` restricted to the values this code produces:
`none` is `NaN`, `some q` the exact rational value. -/
abbrev JsNum := Option ℚ

/-- `NaN`-propagating addition (`a + b` in JS). -/
def jsAdd : JsNum → JsNum → JsNum
  | some a, some b => some (a + b)
  | _, _ => none

/-- `NaN`-propagating subtraction. -/
def jsSub : JsNum → JsNum → JsNum
  | some a, some b => some (a - b)
  | _, _ => none

/-- `NaN`-propagating multiplication. -/
def jsMul : JsNum → JsNum → JsNum
  | some a, some b => some (a * b)
  | _, _ => none

/-- `NaN`-propagating division.  JS division by zero yields an infinity, which
this model does not represent; every division in the source is guarded so that
the denominator is positive, and the model returns the `NaN` marker in the
unreachable zero-denominator case. -/
def jsDiv : JsNum → JsNum → JsNum
  | some a, some b => if b = 0 then none else some (a / b)
  | _, _ => none

/-- `Math.min(a, b)`: `NaN` if either argument is `NaN`. -/
def jsMin : JsNum → JsNum → JsNum
  | some a, some b => some (min a b)
  | _, _ => none

/-- `Math.max(a, b)`: `NaN` if either argument is `NaN`. -/
def jsMax : JsNum → JsNum → JsNum
  | some a, some b => some (max a b)
  | _, _ => none

/-- The JS comparison `b < a`; false when `a` is `NaN`. -/
def jsGt (a : JsNum) (b : ℚ) : Bool :=
  match a with
  | some x => decide (b < x)
  | none => false

/-- `Math.min(...l)` for a non-empty list (spread of `Array.map`). -/
def listMin : List JsNum → JsNum
  | [] => none
  | x :: xs => xs.foldl jsMin x

/-- `Math.max(...l)` for a non-empty list. -/
def listMax : List JsNum → JsNum
  | [] => none
  | x :: xs => xs.foldl jsMax x

/-- `l.reduce((sum, o) => sum + o, 0)`. -/
def listSum (l : List JsNum) : JsNum :=
  l.foldl jsAdd (some 0)

/-- Consume a run of decimal digits from the front of a character list,
returning the accumulated value, the number of digits consumed, and the rest. -/
def readDigits : List Char → Nat → Nat → Nat × Nat × List Char
  | [], acc, cnt => (acc, cnt, [])
  | c :: cs, acc, cnt =>
    if c.isDigit then readDigits cs (10 * acc + (c.toNat - 48)) (cnt + 1)
    else (acc, cnt, c :: cs)

/-- `10 ^ e` over ℚ for an integer exponent. -/
def pow10 (e : Int) : ℚ :=
  if 0 ≤ e then (10 : ℚ) ^ e.toNat else 1 / (10 : ℚ) ^ (-e).toNat

/-- Exponent part of a JS float literal (`e5`, `E-3`, ...); an `e` not followed
by digits contributes exponent 0 (as in `parseFloat`). -/
def readExp (cs : List Char) : Int :=
  let (es, cs1) : Int × List Char :=
    match cs with
    | '-' :: rest => (-1, rest)
    | '+' :: rest => (1, rest)
    | _ => (1, cs)
  let (v, cnt, _) := readDigits cs1 0 0
  if cnt = 0 then 0 else es * (v : Int)

/-- The symbolic content of a JS float literal: sign, integer part, fraction
part, fraction digit count, exponent; `none` when no mantissa digit could be
read (`NaN`).  Skips leading spaces, parses an optional sign, a decimal
mantissa and an optional exponent, and ignores any trailing characters. -/
def floatParts (s : String) : Option (Int × Nat × Nat × Nat × Int) :=
  let cs := s.data.dropWhile (fun c => c = ' ')
  let (sgn, cs1) : Int × List Char :=
    match cs with
    | '-' :: rest => (-1, rest)
    | '+' :: rest => (1, rest)
    | _ => (1, cs)
  let (ip, icnt, cs2) := readDigits cs1 0 0
  let (fp, fcnt, cs3) :=
    match cs2 with
    | '.' :: rest => readDigits rest 0 0
    | _ => (0, 0, cs2)
  if icnt + fcnt = 0 then none
  else
    let e : Int :=
      match cs3 with
      | 'e' :: rest => readExp rest
      | 'E' :: rest => readExp rest
      | _ => 0
    some (sgn, ip, fp, fcnt, e)

/-- Model of JavaScript `parseFloat`: the numeric value of the literal parsed
by `floatParts`; `none` (`NaN`) when no digit of the mantissa could be read. -/
def parseFloat (s : String) : JsNum :=
  match floatParts s with
  | none => none
  | some (sgn, ip, fp, fcnt, e) =>
    some ((sgn : ℚ) * ((ip : ℚ) + (fp : ℚ) / (10 : ℚ) ^ fcnt) * pow10 e)

/-- Model of JavaScript `parseInt(s)` (radix 10): optional sign and a run of
leading digits; `none` (`NaN`) when no digit could be read. -/
def parseIntJS (s : String) : Option Int :=
  let cs := s.data.dropWhile (fun c => c = ' ')
  let (sg, cs1) : Int × List Char :=
    match cs with
    | '-' :: rest => (-1, rest)
    | '+' :: rest => (1, rest)
    | _ => (1, cs)
  let (v, cnt, _) := readDigits cs1 0 0
  if cnt = 0 then none else some (sg * (v : Int))

/-- The JS truthiness default `s || d` on an optional string field: `undefined`
and the empty string are falsy. -/
def strOr (s : Option String) (d : String) : String :=
  match s with
  | none => d
  | some t => if t = "" then d else t

/-- Whether an optional string field is truthy (`item.f ? _ : _`). -/
def strTruthy (s : Option String) : Bool :=
  match s with
  | none => false
  | some t => t ≠ ""

/-! ### Date model (`P2PService.parseValidDate`)

A `Date` is epoch milliseconds; `new Date(ms)` is valid iff `|ms| ≤ 8.64e15`. -/

/-- The largest absolute epoch-millisecond value a JS `Date` can hold. -/
def maxDateMillis : Int := 8640000000000000

/-- `new Date(ms)`: `none` when the resulting date is invalid. -/
def dateFromMillis (ms : Int) : Option Int :=
  if -maxDateMillis ≤ ms ∧ ms ≤ maxDateMillis then some ms else none

/-- Days since 1970-01-01 of the civil date `(y, m, d)` (proleptic Gregorian);
the standard era/year-of-era computation with truncating division. -/
def daysFromCivil (y : Int) (m d : Nat) : Int :=
  let y2 : Int := if m ≤ 2 then y - 1 else y
  let era : Int := (if 0 ≤ y2 then y2 else y2 - 399) / 400
  let yoe : Int := y2 - era * 400
  let mp : Int := if 2 < m then (m : Int) - 3 else (m : Int) + 9
  let doy : Int := (153 * mp + 2) / 5 + (d : Int) - 1
  let doe : Int := yoe * 365 + yoe / 4 - yoe / 100 + doy
  era * 146097 + doe - 719468

/-- Read exactly `n` decimal digits. -/
def readFixed : Nat → List Char → Nat → Option (Nat × List Char)
  | 0, cs, acc => some (acc, cs)
  | n + 1, c :: cs, acc =>
    if c.isDigit then readFixed n cs (10 * acc + (c.toNat - 48)) else none
  | _ + 1, [], _ => none

/-- Expect one specific character. -/
def expectChar (c : Char) : List Char → Option (List Char)
  | x :: xs => if x = c then some xs else none
  | [] => none

/-- Model of `new Date(string)` on the ISO-8601 UTC strings this system
handles, of the exact shape `YYYY-MM-DDTHH:MM:SSZ`; every other string is
treated as unparseable (day-of-month validation is simplified to 1..31). -/
def parseISODate (s : String) : Option Int := do
  let (y, r1) ← readFixed 4 s.data 0
  let r2 ← expectChar '-' r1
  let (mo, r3) ← readFixed 2 r2 0
  let r4 ← expectChar '-' r3
  let (d, r5) ← readFixed 2 r4 0
  let r6 ← expectChar 'T' r5
  let (h, r7) ← readFixed 2 r6 0
  let r8 ← expectChar ':' r7
  let (mi, r9) ← readFixed 2 r8 0
  let r10 ← expectChar ':' r9
  let (se, r11) ← readFixed 2 r10 0
  let r12 ← expectChar 'Z' r11
  if r12 = [] ∧ 1 ≤ mo ∧ mo ≤ 12 ∧ 1 ≤ d ∧ d ≤ 31 ∧ h ≤ 23 ∧ mi ≤ 59 ∧ se ≤ 59 then
    dateFromMillis ((daysFromCivil (y : Int) mo d * 86400 + (h : Int) * 3600
      + (mi : Int) * 60 + (se : Int)) * 1000)
  else none

/-- Result of `P2PService.parseValidDate`: the parsed instant (or `none` for
"field absent") together with the `console.warn` lines emitted. -/
structure DateParseResult where
  value : Option Int
  warnings : List String
  deriving DecidableEq, Repr

/-- Model of `P2PService.parseValidDate`.  A string of decimal digits (the
`/^\d+$/` branch; `Number(s)` is never `NaN` on such a string) is taken as Unix
seconds and converted to milliseconds; any other string goes through
`new Date(string)` ISO parsing.  An invalid result yields no value and a
logged warning. -/
def parseValidDate (dateString : String) : DateParseResult :=
  if dateString.data.all Char.isDigit ∧ dateString.data ≠ [] then
    let n : Nat := (readDigits dateString.data 0 0).1
    match dateFromMillis ((n : Int) * 1000) with
    | none => ⟨none, ["Invalid Unix timestamp: " ++ dateString]⟩
    | some v => ⟨some v, []⟩
  else
    match parseISODate dateString with
    | none => ⟨none, ["Invalid date string: " ++ dateString]⟩
    | some v => ⟨some v, []⟩

/-! ### Shared constants (`shared/constants.ts`) -/

/-- `TRADE_SIDE.SELL = 0` (Bybit API convention). -/
def TRADE_SIDE.SELL : Int := 0

/-- `TRADE_SIDE.BUY = 1` (Bybit API convention). -/
def TRADE_SIDE.BUY : Int := 1

/-- `PAYMENT_METHODS.TBC_BANK = 165`. -/
def PAYMENT_METHODS.TBC_BANK : Int := 165

/-! ### Raw upstream records (`BybitP2POffer` of `p2p.service.ts`)

Fields the ETL code reads.  Fields the code guards with `|| default` or
`!== undefined` are `Option`-typed so the guards are observable. -/

/-- The `tradingPreferenceSet` sub-object. -/
structure RawTradingPreferenceSet where
  hasUnPostAd : Int
  isKyc : Int
  isEmail : Int
  isMobile : Int
  registerTimeThreshold : Int
  orderFinishNumberDay30 : Int
  completeRateDay30 : Option String
  nationalLimit : String
  deriving DecidableEq, Repr

/-- The `symbolInfo` sub-object (the fields `upsertDimensionData` reads). -/
structure RawSymbolInfo where
  id : Int
  exchangeId : Int
  orgId : Int
  tokenId : String
  currencyId : String
  status : Option Int
  lowerLimitAlarm : Option Int
  upperLimitAlarm : Option Int
  itemDownRange : Option String
  itemUpRange : Option String
  currencyMinQuote : Option String
  currencyMaxQuote : Option String
  currencyLowerMaxQuote : Option String
  tokenMinQuote : Option String
  tokenMaxQuote : Option String
  buyFeeRate : Option String
  sellFeeRate : Option String
  orderAutoCancelMinute : Option Int
  orderFinishMinute : Option Int
  deriving DecidableEq, Repr

/-- One raw offer record of a Bybit API page. -/
structure RawOffer where
  id : Int
  accountId : Int
  userId : Int
  nickName : String
  tokenId : String
  currencyId : String
  side : Option Int
  priceType : Option Int
  price : String
  premium : Option String
  lastQuantity : Option String
  quantity : Option String
  frozenQuantity : Option String
  executedQuantity : Option String
  minAmount : Option String
  maxAmount : Option String
  remark : Option String
  status : Option Int
  payments : List String
  isOnline : Option Bool
  lastLogoutTime : Option String
  blocked : String
  makerContact : Bool
  symbolInfo : Option RawSymbolInfo
  tradingPreferenceSet : Option RawTradingPreferenceSet
  version : Option Int
  authStatus : Option Int
  deriving DecidableEq, Repr

/-! ### Stored rows (schema of `db/db.ts`, ADR-001) -/

/-- One `p2p_offers` fact row (primary key `(fetch_time, offer_id)`). -/
structure OfferRow where
  fetch_time : Int
  offer_id : Int
  account_id : Int
  user_id : Int
  token_id : String
  currency_id : String
  side : Int
  price_type : Int
  price : JsNum
  premium : JsNum
  last_quantity : JsNum
  total_quantity : JsNum
  frozen_quantity : JsNum
  executed_quantity : JsNum
  min_amount : JsNum
  max_amount : JsNum
  status : Int
  is_online : Bool
  remark : Option String
  last_logout : Option Int
  version : Int
  auth_status : Int
  user_type : String
  payment_period : Int
  user_mask_id : String
  deriving DecidableEq, Repr

/-- One `offer_payments` bridge row (primary key is the whole triple). -/
structure BridgeRow where
  fetch_time : Int
  offer_id : Int
  method_id : Option Int
  deriving DecidableEq, Repr

/-- One `trading_preferences` satellite row (primary key
`(fetch_time, offer_id)`). -/
structure PrefsRow where
  fetch_time : Int
  offer_id : Int
  has_unposted_ad : Bool
  is_kyc : Bool
  is_email_verified : Bool
  is_mobile_verified : Bool
  register_time_threshold : Int
  order_finish_30d : Int
  complete_rate_30d : JsNum
  national_limit : String
  deriving DecidableEq, Repr

/-- One `p2p_users` dimension row (key `user_id`). -/
structure UserRow where
  user_id : Int
  account_id : Int
  nick_name : String
  blocked : Bool
  maker_contact : Bool
  deriving DecidableEq, Repr

/-- One `payment_methods` dimension row (key `method_id`). -/
structure PaymentMethodRow where
  method_id : Option Int
  name : String
  deriving DecidableEq, Repr

/-- One `symbol_info` dimension row (key `symbol_id`).  `buy_fee_rate` and
`sell_fee_rate` are nullable columns (`undefined` in the source maps to SQL
`NULL`, the outer `none`). -/
structure SymbolRow where
  symbol_id : Int
  exchange_id : Int
  org_id : Int
  token_id : String
  currency_id : String
  status : Int
  lower_limit_alarm : Int
  upper_limit_alarm : Int
  item_down_range : JsNum
  item_up_range : JsNum
  currency_min_quote : JsNum
  currency_max_quote : JsNum
  token_min_quote : JsNum
  token_max_quote : JsNum
  currency_lower_max : JsNum
  buy_fee_rate : Option JsNum
  sell_fee_rate : Option JsNum
  order_auto_cancel : Int
  order_finish_minute : Int
  deriving DecidableEq, Repr

/-- One `assets` dimension row (key `asset_id`); the service only ever passes
the id, leaving scale and sequence `NULL`. -/
structure AssetRow where
  asset_id : String
  scale : Option Int
  sequence : Option Int
  deriving DecidableEq, Repr

/-- The relational store: the table contents relevant to the ETL core. -/
structure DB where
  offers : List OfferRow
  offerPayments : List BridgeRow
  tradingPrefs : List PrefsRow
  users : List UserRow
  paymentMethods : List PaymentMethodRow
  symbolInfos : List SymbolRow
  assets : List AssetRow
  deriving DecidableEq, Repr

/-- The empty store. -/
def DB.empty : DB := ⟨[], [], [], [], [], [], []⟩

/-- Errors the modelled data-access layer can raise. -/
inductive DbError where
  /-- A plain `INSERT` hit an existing primary key. -/
  | duplicateKey
  deriving DecidableEq, Repr

/-! ### Data-access layer (the `models/*.model.ts` classes)

Each operation carries the semantics of the SQL statement the source issues
against the schema of `db/db.ts`. -/

/-- `P2POfferModel.create`: a plain `INSERT INTO p2p_offers ...`; the primary
key `(fetch_time, offer_id)` makes a duplicate insert raise. -/
def P2POfferModel.create (db : DB) (o : OfferRow) : Except DbError DB :=
  if db.offers.any (fun r => r.fetch_time == o.fetch_time && r.offer_id == o.offer_id) then
    .error .duplicateKey
  else
    .ok { db with offers := o :: db.offers }

/-- `P2POfferModel.deleteOldOffers`: `DELETE FROM p2p_offers WHERE fetch_time
< cutoff` with `cutoff = now - retentionDays` civil days (`setDate`), i.e.
`retentionDays * 86400000` milliseconds in this UTC model. -/
def P2POfferModel.deleteOldOffers (now : Int) (retentionDays : Int) (db : DB) : DB :=
  let cutoffDate := now - retentionDays * 86400000
  { db with offers := db.offers.filter (fun r => !(r.fetch_time < cutoffDate)) }

/-- `OfferPaymentModel.create`: `INSERT OR IGNORE INTO offer_payments ...`;
a duplicate `(fetch_time, offer_id, method_id)` triple leaves the table
unchanged and raises nothing. -/
def OfferPaymentModel.create (db : DB) (bp : BridgeRow) : DB :=
  if db.offerPayments.any (fun b =>
      b.fetch_time == bp.fetch_time && b.offer_id == bp.offer_id && b.method_id == bp.method_id) then
    db
  else
    { db with offerPayments := bp :: db.offerPayments }

/-- `OfferPaymentModel.deleteOldRecords`: same cutoff shape as the fact
table. -/
def OfferPaymentModel.deleteOldRecords (now : Int) (retentionDays : Int) (db : DB) : DB :=
  let cutoffDate := now - retentionDays * 86400000
  { db with offerPayments := db.offerPayments.filter (fun b => !(b.fetch_time < cutoffDate)) }

/-- `TradingPreferencesModel.create`: `INSERT OR REPLACE INTO
trading_preferences ...`; an existing `(fetch_time, offer_id)` row is
overwritten. -/
def TradingPreferencesModel.create (db : DB) (p : PrefsRow) : DB :=
  { db with tradingPrefs :=
      p :: db.tradingPrefs.filter (fun q =>
        !(q.fetch_time == p.fetch_time && q.offer_id == p.offer_id)) }

/-- `TradingPreferencesModel.deleteOldRecords`: same cutoff shape as the fact
table. -/
def TradingPreferencesModel.deleteOldRecords (now : Int) (retentionDays : Int) (db : DB) : DB :=
  let cutoffDate := now - retentionDays * 86400000
  { db with tradingPrefs := db.tradingPrefs.filter (fun p => !(p.fetch_time < cutoffDate)) }

/-- `P2PUserModel.upsert`: `INSERT OR REPLACE INTO p2p_users ...` keyed by
`user_id`. -/
def P2PUserModel.upsert (db : DB) (u : UserRow) : DB :=
  { db with users := u :: db.users.filter (fun v => !(v.user_id == u.user_id)) }

/-- `PaymentMethodModel.upsert`: `INSERT OR REPLACE INTO payment_methods ...`
keyed by `method_id`. -/
def PaymentMethodModel.upsert (db : DB) (m : PaymentMethodRow) : DB :=
  { db with paymentMethods :=
      m :: db.paymentMethods.filter (fun n => !(n.method_id == m.method_id)) }

/-- `SymbolInfoModel.upsert`: `INSERT OR REPLACE INTO symbol_info ...` keyed by
`symbol_id`. -/
def SymbolInfoModel.upsert (db : DB) (s : SymbolRow) : DB :=
  { db with symbolInfos :=
      s :: db.symbolInfos.filter (fun t => !(t.symbol_id == s.symbol_id)) }

/-- `AssetModel.upsert`: `INSERT OR REPLACE INTO assets ...` keyed by
`asset_id`. -/
def AssetModel.upsert (db : DB) (a : AssetRow) : DB :=
  { db with assets := a :: db.assets.filter (fun b => !(b.asset_id == a.asset_id)) }

/-- `OfferPaymentModel.getOffersByPaymentMethod`: the inner join of
`p2p_offers` with `offer_payments` (on `(fetch_time, offer_id)`, restricted to
`method_id`) and `payment_methods`, ordered by `fetch_time DESC` with
`LIMIT limit`.  Both joined tables have primary keys that make each offer row
appear at most once, so the join is a filter of the fact table. -/
def joinedTbcOffers (db : DB) (methodId : Int) : List OfferRow :=
  db.offers.filter (fun o =>
    db.offerPayments.any (fun b =>
      b.fetch_time == o.fetch_time && b.offer_id == o.offer_id && b.method_id == some methodId)
    && db.paymentMethods.any (fun m => m.method_id == some methodId))

/-- Insert a row into a list kept in descending `fetch_time` order. -/
def insertDesc (r : OfferRow) : List OfferRow → List OfferRow
  | [] => [r]
  | x :: xs => if r.fetch_time ≤ x.fetch_time then x :: insertDesc r xs else r :: x :: xs

/-- Sort by `fetch_time DESC` (insertion sort; the model of `ORDER BY`). -/
def sortDesc : List OfferRow → List OfferRow
  | [] => []
  | x :: xs => insertDesc x (sortDesc xs)

/-- `OfferPaymentModel.getOffersByPaymentMethod` (see `joinedTbcOffers`). -/
def OfferPaymentModel.getOffersByPaymentMethod (db : DB) (methodId : Int) (limit : Nat) :
    List OfferRow :=
  (sortDesc (joinedTbcOffers db methodId)).take limit

/-! ### `P2PService` (in `p2p.service.ts`, embedded in `README.md`) -/

/-- The ternary `s ? parseFloat(s) : 0` on an optional string field. -/
def parseFloatOrZero (s : Option String) : JsNum :=
  match s with
  | none => some 0
  | some t => if t = "" then some 0 else parseFloat t

/-- The ternary `s ? parseFloat(s) : undefined` on an optional string field
(the outer `none` is `undefined` / SQL `NULL`). -/
def parseFloatOpt (s : Option String) : Option JsNum :=
  match s with
  | none => none
  | some t => if t = "" then none else some (parseFloat t)

/-- The `SymbolInfo` object literal built by `upsertDimensionData`. -/
def mkSymbolRow (si : RawSymbolInfo) : SymbolRow where
  symbol_id := si.id
  exchange_id := si.exchangeId
  org_id := si.orgId
  token_id := si.tokenId
  currency_id := si.currencyId
  status := si.status.getD 0
  lower_limit_alarm := si.lowerLimitAlarm.getD 0
  upper_limit_alarm := si.upperLimitAlarm.getD 0
  item_down_range := parseFloatOrZero si.itemDownRange
  item_up_range := parseFloatOrZero si.itemUpRange
  currency_min_quote := parseFloatOrZero si.currencyMinQuote
  currency_max_quote := parseFloatOrZero si.currencyMaxQuote
  token_min_quote := parseFloatOrZero si.tokenMinQuote
  token_max_quote := parseFloatOrZero si.tokenMaxQuote
  currency_lower_max := parseFloatOrZero si.currencyLowerMaxQuote
  buy_fee_rate := parseFloatOpt si.buyFeeRate
  sell_fee_rate := parseFloatOpt si.sellFeeRate
  order_auto_cancel := si.orderAutoCancelMinute.getD 0
  order_finish_minute := si.orderFinishMinute.getD 0

/-- `P2PService.upsertDimensionData`: symbol info (when present), then the
user, then one payment-method dimension row per payment id (with the synthetic
placeholder name), then the two asset stubs. -/
def upsertDimensionData (item : RawOffer) (fetchTime : Int) (db : DB) : DB :=
  let db1 :=
    match item.symbolInfo with
    | some si => SymbolInfoModel.upsert db (mkSymbolRow si)
    | none => db
  let db2 := P2PUserModel.upsert db1
    ⟨item.userId, item.accountId, item.nickName, item.blocked == "Y", item.makerContact⟩
  let db3 := item.payments.foldl
    (fun d paymentId =>
      PaymentMethodModel.upsert d ⟨parseIntJS paymentId, "Payment Method " ++ paymentId⟩)
    db2
  let db4 := AssetModel.upsert db3 ⟨item.tokenId, none, none⟩
  AssetModel.upsert db4 ⟨item.currencyId, none, none⟩

/-- The `P2POffer` object literal built by `insertFactData`.  `user_mask_id`
stores `item.userId || ''` (the raw user id, rendered from the model's
integer). -/
def mkOfferRow (item : RawOffer) (fetchTime : Int) : OfferRow where
  fetch_time := fetchTime
  offer_id := item.id
  account_id := item.accountId
  user_id := item.userId
  token_id := item.tokenId
  currency_id := item.currencyId
  side := match item.side with
    | some s => s
    | none => 0
  price_type := item.priceType.getD 0
  price := parseFloat item.price
  premium := parseFloat (strOr item.premium "0")
  last_quantity := parseFloat (strOr item.lastQuantity "0")
  total_quantity := parseFloat (strOr item.quantity "0")
  frozen_quantity := parseFloat (strOr item.frozenQuantity "0")
  executed_quantity := parseFloat (strOr item.executedQuantity "0")
  min_amount := parseFloat (strOr item.minAmount "0")
  max_amount := parseFloat (strOr item.maxAmount "0")
  status := item.status.getD 0
  is_online := item.isOnline.getD false
  remark := item.remark
  last_logout :=
    match item.lastLogoutTime with
    | some t => if t = "" then none else (parseValidDate t).value
    | none => none
  version := item.version.getD 0
  auth_status := item.authStatus.getD 0
  user_type := "regular"
  payment_period := 0
  user_mask_id := toString item.userId

/-- The `TradingPreferences` object literal built by `insertFactData`. -/
def mkPrefsRow (tp : RawTradingPreferenceSet) (offerId : Int) (fetchTime : Int) : PrefsRow where
  fetch_time := fetchTime
  offer_id := offerId
  has_unposted_ad := tp.hasUnPostAd == 1
  is_kyc := tp.isKyc == 1
  is_email_verified := tp.isEmail == 1
  is_mobile_verified := tp.isMobile == 1
  register_time_threshold := tp.registerTimeThreshold
  order_finish_30d := tp.orderFinishNumberDay30
  complete_rate_30d := parseFloatOrZero tp.completeRateDay30
  national_limit := tp.nationalLimit

/-- `P2PService.insertFactData`: insert the fact row, then one bridge row per
payment id, then the trading-preferences row (when the sub-object is present).
No transaction surrounds these statements; an error leaves the writes already
performed in place and is returned. -/
def insertFactData (item : RawOffer) (fetchTime : Int) (db : DB) : DB × Option DbError :=
  match P2POfferModel.create db (mkOfferRow item fetchTime) with
  | .error e => (db, some e)
  | .ok db1 =>
    let db2 := item.payments.foldl
      (fun d paymentId => OfferPaymentModel.create d ⟨fetchTime, item.id, parseIntJS paymentId⟩)
      db1
    let db3 :=
      match item.tradingPreferenceSet with
      | some tp => TradingPreferencesModel.create db2 (mkPrefsRow tp item.id fetchTime)
      | none => db2
    (db3, none)

/-- One iteration of the loop body of `P2PService.processAndStoreP2PData`:
the `normalizedItem` spread keeps `side` verbatim (it is the identity on the
record), then dimensions are upserted, then the fact data is inserted.  The
loop body has no try/catch of its own. -/
def processRecord (db : DB) (fetchTime : Int) (item : RawOffer) : DB × Option DbError :=
  let db1 := upsertDimensionData item fetchTime db
  insertFactData item fetchTime db1

/-- The record loop of `P2PService.processAndStoreP2PData` over one fetched
page.  The surrounding try/catch logs and rethrows, so the first failing
record ends the loop; the state reached so far is kept (no rollback). -/
def processPage (fetchTime : Int) : DB → List RawOffer → DB × Option DbError
  | db, [] => (db, none)
  | db, item :: rest =>
    match processRecord db fetchTime item with
    | (db1, none) => processPage fetchTime db1 rest
    | (db1, some e) => (db1, some e)

/-- The summary object of `P2PService.getMarketSummary` (the nested
`buy_offers` / `sell_offers` objects are flattened into fields). -/
structure MarketSummary where
  token_id : String
  currency_id : String
  buy_count : Nat
  buy_avg : JsNum
  buy_min : JsNum
  buy_max : JsNum
  sell_count : Nat
  sell_avg : JsNum
  sell_min : JsNum
  sell_max : JsNum
  spread : JsNum
  deriving DecidableEq, Repr

/-- The row predicate of the two `.filter` calls in
`P2PService.getMarketSummary`. -/
def summaryFilter (tokenId currencyId : String) (side : Int) (startTime endTime : Int)
    (o : OfferRow) : Bool :=
  o.token_id == tokenId && o.currency_id == currencyId && o.side == side
    && decide (startTime ≤ o.fetch_time) && decide (o.fetch_time ≤ endTime)

/-- `length > 0 ? prices.reduce(sum) / length : 0`. -/
def groupAvg (l : List OfferRow) : JsNum :=
  if 0 < l.length then jsDiv (listSum (l.map OfferRow.price)) (some (l.length : ℚ)) else some 0

/-- `length > 0 ? Math.min(...prices) : 0`. -/
def groupMin (l : List OfferRow) : JsNum :=
  if 0 < l.length then listMin (l.map OfferRow.price) else some 0

/-- `length > 0 ? Math.max(...prices) : 0`. -/
def groupMax (l : List OfferRow) : JsNum :=
  if 0 < l.length then listMax (l.map OfferRow.price) else some 0

/-- `P2PService.getMarketSummary`: the trailing 24-hour window over the TBC
Bank offers (`getOffersByPaymentMethod(165, 1000)`), partitioned by side;
`spread` starts at 0 and is reassigned only when both `sell_offers.min_price`
and `buy_offers.max_price` are strictly positive. -/
def getMarketSummary (tokenId currencyId : String) (now : Int) (db : DB) : MarketSummary :=
  let endTime := now
  let startTime := now - 24 * 60 * 60 * 1000
  let tbcOffers := OfferPaymentModel.getOffersByPaymentMethod db 165 1000
  let buyOffersFiltered :=
    tbcOffers.filter (summaryFilter tokenId currencyId TRADE_SIDE.BUY startTime endTime)
  let sellOffersFiltered :=
    tbcOffers.filter (summaryFilter tokenId currencyId TRADE_SIDE.SELL startTime endTime)
  let buyMax := groupMax buyOffersFiltered
  let sellMin := groupMin sellOffersFiltered
  let spread :=
    if jsGt sellMin 0 && jsGt buyMax 0 then
      jsMul (jsDiv (jsSub sellMin buyMax) buyMax) (some 100)
    else some 0
  { token_id := tokenId
    currency_id := currencyId
    buy_count := buyOffersFiltered.length
    buy_avg := groupAvg buyOffersFiltered
    buy_min := groupMin buyOffersFiltered
    buy_max := buyMax
    sell_count := sellOffersFiltered.length
    sell_avg := groupAvg sellOffersFiltered
    sell_min := sellMin
    sell_max := groupMax sellOffersFiltered
    spread := spread }

/-- `P2PService.cleanupOldData`: the three retention deletes (the source runs
them under `Promise.all`; they commute, the model applies them in sequence). -/
def cleanupOldData (now : Int) (retentionDays : Int) (db : DB) : DB :=
  TradingPreferencesModel.deleteOldRecords now retentionDays
    (OfferPaymentModel.deleteOldRecords now retentionDays
      (P2POfferModel.deleteOldOffers now retentionDays db))

/-- Application-layer referential integrity (§3 of the design): every bridge
and trading-preferences row references an existing fact row with the same
`(fetch_time, offer_id)`. -/
def refIntegrity (db : DB) : Prop :=
  (∀ bp ∈ db.offerPayments, ∃ r ∈ db.offers,
      r.fetch_time = bp.fetch_time ∧ r.offer_id = bp.offer_id)
  ∧ (∀ tp ∈ db.tradingPrefs, ∃ r ∈ db.offers,
      r.fetch_time = tp.fetch_time ∧ r.offer_id = tp.offer_id)

instance (db : DB) : Decidable (refIntegrity db) := by
  unfold refIntegrity; infer_instance

/-- The numeric value of an all-digit string. -/
def natOfDigits (s : String) : Nat := (readDigits s.data 0 0).1

/-! ### Concrete fixtures -/

/-- A well-formed raw offer record (BUY side, USDT/USD, one TBC Bank payment
method) used by the concrete instances below. -/
def sampleOffer : RawOffer where
  id := 101
  accountId := 7001
  userId := 501
  nickName := "alice"
  tokenId := "USDT"
  currencyId := "USD"
  side := some 1
  priceType := some 0
  price := "1.02"
  premium := some "0.5"
  lastQuantity := some "100"
  quantity := some "200"
  frozenQuantity := some "0"
  executedQuantity := some "50"
  minAmount := some "10"
  maxAmount := some "500"
  remark := none
  status := some 10
  payments := ["165"]
  isOnline := some true
  lastLogoutTime := none
  blocked := "N"
  makerContact := false
  symbolInfo := none
  tradingPreferenceSet := none
  version := some 1
  authStatus := some 1

/-- A second record of the same page, distinct offer id. -/
def secondOffer : RawOffer := { sampleOffer with id := 202 }

/-- A record whose price string cannot be parsed as a number. -/
def badPriceOffer : RawOffer := { sampleOffer with id := 102, price := "abc" }

/-- A record whose upstream `side` value lies outside the set 0, 1. -/
def sideTwoOffer : RawOffer := { sampleOffer with id := 103, side := some 2 }

/-- A store already holding the fact row that `sampleOffer` at fetch time 1000
would produce, so re-processing `sampleOffer` hits the duplicate key. -/
def dbWithSampleFact : DB :=
  { DB.empty with offers := [mkOfferRow sampleOffer 1000] }

/-! ### Shared helper lemmas -/

/-- `insertFactData` returns an error only when the fact table already holds a
row with the record's `(fetch_time, offer_id)` key; no field content (price,
side, ...) can make it fail. -/
theorem insertFactData_fail_mem (item : RawOffer) (t : Int) (db : DB)
    (h : (insertFactData item t db).2 ≠ none) :
    ∃ r ∈ db.offers, r.fetch_time = t ∧ r.offer_id = item.id := by
  unfold insertFactData at h
  rcases hc : P2POfferModel.create db (mkOfferRow item t) with e | db1
  · unfold P2POfferModel.create at hc
    split at hc
    · next hdup =>
      rcases List.any_eq_true.mp hdup with ⟨r, hr, hkey⟩
      rw [Bool.and_eq_true, beq_iff_eq, beq_iff_eq] at hkey
      exact ⟨r, hr, hkey.1, hkey.2⟩
    · exact absurd hc (by simp)
  · rw [hc] at h
    simp at h

/-! ### C1: per-record error propagation -/

/-- C1 counterexample.  The record loop of `processAndStoreP2PData` has no
per-record catch: on a page whose first record fails (its fact key already
exists), the error propagates and the second, valid record is never stored —
processing does not continue with the remaining records of the page. -/
theorem C1_page_abort_on_record_error :
    (processPage 1000 dbWithSampleFact [sampleOffer, secondOffer]).2 = some .duplicateKey
    ∧ (∀ r ∈ (processPage 1000 dbWithSampleFact [sampleOffer, secondOffer]).1.offers,
        r.offer_id ≠ 202) := by
  constructor
  · rfl
  · decide

/-- C1 amended: a per-record error (such as a failed single insert) is not
caught and skipped; it ends the page processing at that record — the remaining
records are never reached and the error propagates (the surrounding catch logs
and rethrows), while the writes already performed are kept. -/
theorem C1_record_error_aborts_page (db : DB) (t : Int) (item : RawOffer)
    (rest : List RawOffer) (db1 : DB) (e : DbError)
    (h : processRecord db t item = (db1, some e)) :
    processPage t db (item :: rest) = (db1, some e) := by
  unfold processPage
  rw [h]

/-- C1 witness: the amended theorem applied to the concrete aborting page. -/
theorem C1_record_error_aborts_page_witness :
    processPage 1000 dbWithSampleFact (sampleOffer :: [secondOffer])
      = ((processRecord dbWithSampleFact 1000 sampleOffer).1, some .duplicateKey) :=
  C1_record_error_aborts_page dbWithSampleFact 1000 sampleOffer [secondOffer]
    (processRecord dbWithSampleFact 1000 sampleOffer).1 .duplicateKey rfl

/-! ### C2: numeric-field defaulting and the missing hard price error -/

/-- C2 counterexample.  A record whose price string cannot be parsed does not
fail normalization: `parseFloat` yields `NaN`, no error is raised, and the
record is stored with a `NaN` price. -/
theorem C2_unparseable_price_is_stored :
    (insertFactData badPriceOffer 1000 DB.empty).2 = none
    ∧ (insertFactData badPriceOffer 1000 DB.empty).1.offers
        = [mkOfferRow badPriceOffer 1000]
    ∧ (mkOfferRow badPriceOffer 1000).price = none := by
  refine ⟨rfl, rfl, rfl⟩

/-- C2 amended: each optional numeric string field that is absent or empty
normalizes to 0.0; `price` has no default and is `parseFloat(item.price)`
verbatim, but an unparseable price is not a hard error — the record is stored
with the `NaN` value, and the only failure `insertFactData` can produce is a
pre-existing duplicate `(fetch_time, offer_id)` key. -/
theorem C2_numeric_defaults (item : RawOffer) (t : Int) :
    ((item.premium = none ∨ item.premium = some "") → (mkOfferRow item t).premium = some 0)
    ∧ ((item.lastQuantity = none ∨ item.lastQuantity = some "") →
        (mkOfferRow item t).last_quantity = some 0)
    ∧ ((item.quantity = none ∨ item.quantity = some "") →
        (mkOfferRow item t).total_quantity = some 0)
    ∧ ((item.frozenQuantity = none ∨ item.frozenQuantity = some "") →
        (mkOfferRow item t).frozen_quantity = some 0)
    ∧ ((item.executedQuantity = none ∨ item.executedQuantity = some "") →
        (mkOfferRow item t).executed_quantity = some 0)
    ∧ ((item.minAmount = none ∨ item.minAmount = some "") →
        (mkOfferRow item t).min_amount = some 0)
    ∧ ((item.maxAmount = none ∨ item.maxAmount = some "") →
        (mkOfferRow item t).max_amount = some 0)
    ∧ (mkOfferRow item t).price = parseFloat item.price
    ∧ (∀ db, (insertFactData item t db).2 ≠ none →
        ∃ r ∈ db.offers, r.fetch_time = t ∧ r.offer_id = item.id) := by
  have hp : floatParts "0" = some (1, 0, 0, 0, 0) := by decide
  have hz : parseFloat "0" = some 0 := by
    unfold parseFloat
    rw [hp]
    norm_num [pow10]
  refine ⟨?_, ?_, ?_, ?_, ?_, ?_, ?_, rfl, fun db h => insertFactData_fail_mem item t db h⟩
  all_goals rintro (h | h) <;> simp [mkOfferRow, strOr, h, hz]

/-- C2 witness: the amended theorem at a record with absent and empty numeric
fields. -/
theorem C2_numeric_defaults_witness :
    (mkOfferRow { sampleOffer with premium := none, quantity := some "" } 1000).premium = some 0
    ∧ (mkOfferRow { sampleOffer with premium := none, quantity := some "" } 1000).total_quantity
        = some 0 :=
  ⟨(C2_numeric_defaults { sampleOffer with premium := none, quantity := some "" } 1000).1
      (Or.inl rfl),
   (C2_numeric_defaults { sampleOffer with premium := none, quantity := some "" } 1000).2.2.1
      (Or.inr rfl)⟩

/-! ### C4: per-record atomicity -/

/-- A store holding the sample fact row and a stale user dimension row. -/
def dbC4 : DB :=
  { DB.empty with
    offers := [mkOfferRow sampleOffer 1000]
    users := [⟨501, 7001, "old-nick", false, false⟩] }

/-- C4 counterexample.  When the fact insert of a record fails, the record's
dimension upserts performed just before it are not rolled back: the user row
keeps the new nickname although the record's write set failed — partial state
from the record persists, so the write set is not wrapped in a transaction. -/
theorem C4_partial_state_persists :
    (processRecord dbC4 1000 sampleOffer).2 = some .duplicateKey
    ∧ (processRecord dbC4 1000 sampleOffer).1.users
        = [⟨501, 7001, "alice", false, false⟩] :=
  ⟨rfl, rfl⟩

/-- C4 amended: a failure inside a record's write set surfaces to the caller
of the ETL step, but no transaction boundary wraps the record — the writes
performed before the failure point persist: when the fact insert fails, the
resulting store is exactly the one with the record's dimension upserts
applied. -/
theorem C4_error_keeps_dimension_writes (db : DB) (t : Int) (item : RawOffer)
    (db1 : DB) (e : DbError) (h : processRecord db t item = (db1, some e)) :
    db1 = upsertDimensionData item t db := by
  have hdef : processRecord db t item = insertFactData item t (upsertDimensionData item t db) :=
    rfl
  rw [hdef] at h
  unfold insertFactData at h
  rcases hc : P2POfferModel.create (upsertDimensionData item t db) (mkOfferRow item t)
    with e2 | db2
  · rw [hc] at h
    exact (congrArg Prod.fst h).symm
  · rw [hc] at h
    have := congrArg Prod.snd h
    simp at this

/-- C4 witness: the amended theorem at the concrete failing record. -/
theorem C4_error_keeps_dimension_writes_witness :
    (processRecord dbC4 1000 sampleOffer).1 = upsertDimensionData sampleOffer 1000 dbC4 :=
  C4_error_keeps_dimension_writes dbC4 1000 sampleOffer
    (processRecord dbC4 1000 sampleOffer).1 .duplicateKey rfl

/-! ### C5: conflict semantics of the three insert statements -/

/-- C5: a fact insert whose `(fetch_time, offer_id)` already exists raises
`DuplicateKey`; a bridge insert whose full triple already exists is a silent
no-op leaving the store unchanged; a trading-preferences insert for an
existing `(fetch_time, offer_id)` overwrites — afterwards the only row with
that key is the new one. -/
theorem C5_insert_conflict_semantics :
    (∀ db (o : OfferRow), (∃ r ∈ db.offers, r.fetch_time = o.fetch_time
        ∧ r.offer_id = o.offer_id) →
      P2POfferModel.create db o = .error .duplicateKey)
    ∧ (∀ db (bp : BridgeRow), bp ∈ db.offerPayments → OfferPaymentModel.create db bp = db)
    ∧ (∀ db (p : PrefsRow), p ∈ (TradingPreferencesModel.create db p).tradingPrefs
        ∧ ∀ q ∈ (TradingPreferencesModel.create db p).tradingPrefs,
            q.fetch_time = p.fetch_time → q.offer_id = p.offer_id → q = p) := by
  refine ⟨?_, ?_, ?_⟩
  · rintro db o ⟨r, hr, h1, h2⟩
    unfold P2POfferModel.create
    rw [if_pos]
    exact List.any_eq_true.mpr ⟨r, hr, by rw [h1, h2]; simp⟩
  · intro db bp hbp
    unfold OfferPaymentModel.create
    rw [if_pos]
    exact List.any_eq_true.mpr ⟨bp, hbp, by simp⟩
  · intro db p
    constructor
    · exact List.mem_cons_self _ _
    · intro q hq h1 h2
      rcases List.mem_cons.mp hq with h | h
      · exact h
      · have := (List.mem_filter.mp h).2
        rw [h1, h2] at this
        simp at this

/-- C5 witness: the three conflict behaviours at concrete rows. -/
theorem C5_insert_conflict_semantics_witness :
    P2POfferModel.create dbWithSampleFact (mkOfferRow sampleOffer 1000)
      = .error .duplicateKey
    ∧ OfferPaymentModel.create { DB.empty with offerPayments := [⟨1000, 101, some 165⟩] }
        ⟨1000, 101, some 165⟩
      = { DB.empty with offerPayments := [⟨1000, 101, some 165⟩] } :=
  ⟨C5_insert_conflict_semantics.1 dbWithSampleFact (mkOfferRow sampleOffer 1000)
      ⟨mkOfferRow sampleOffer 1000, List.mem_cons_self _ _, rfl, rfl⟩,
   C5_insert_conflict_semantics.2.1 { DB.empty with offerPayments := [⟨1000, 101, some 165⟩] }
      ⟨1000, 101, some 165⟩ (List.mem_cons_self _ _)⟩

/-! ### C7: side carried verbatim, never surfaced -/

/-- C7 counterexample.  A record with upstream `side = 2` (outside the 0/1
coding) is processed without any error and stored with `side = 2`: the
out-of-set value is not surfaced as a data-quality error. -/
theorem C7_out_of_range_side_stored :
    (processRecord DB.empty 1000 sideTwoOffer).2 = none
    ∧ (processRecord DB.empty 1000 sideTwoOffer).1.offers = [mkOfferRow sideTwoOffer 1000]
    ∧ (mkOfferRow sideTwoOffer 1000).side = 2 :=
  ⟨rfl, rfl, rfl⟩

/-- C7 amended: `side` is carried through verbatim with no remapping whenever
the upstream value is present (an absent value is coerced to 0), and no value
of `side` — in or out of the set 0, 1 — can make the insert fail: the only
failure source is a pre-existing duplicate key. -/
theorem C7_side_verbatim (item : RawOffer) (t : Int) :
    (∀ s, item.side = some s → (mkOfferRow item t).side = s)
    ∧ (item.side = none → (mkOfferRow item t).side = 0)
    ∧ (∀ db, (insertFactData item t db).2 ≠ none →
        ∃ r ∈ db.offers, r.fetch_time = t ∧ r.offer_id = item.id) := by
  refine ⟨?_, ?_, fun db h => insertFactData_fail_mem item t db h⟩
  · intro s h
    simp [mkOfferRow, h]
  · intro h
    simp [mkOfferRow, h]

/-- C7 witness: the amended theorem at the out-of-range record. -/
theorem C7_side_verbatim_witness : (mkOfferRow sideTwoOffer 1000).side = 2 :=
  (C7_side_verbatim sideTwoOffer 1000).1 2 rfl

/-! ### C6: timestamp normalization -/

/-- C6: a base-10 numeric-only timestamp string is interpreted as Unix
seconds (multiplied by 1000 into epoch milliseconds, not taken as
milliseconds); `"1700000000"` yields the same absolute instant as its
ISO-8601 equivalent `"2023-11-14T22:13:20Z"` and a different instant from the
milliseconds reading; an unparseable string resolves to no value, with a
logged warning, instead of failing. -/
theorem C6_timestamp_parsing :
    (∀ s : String, s.data.all Char.isDigit = true → s.data ≠ [] →
        (natOfDigits s : Int) * 1000 ≤ maxDateMillis →
        (parseValidDate s).value = some ((natOfDigits s : Int) * 1000))
    ∧ (parseValidDate "1700000000").value = some 1700000000000
    ∧ (parseValidDate "2023-11-14T22:13:20Z").value = some 1700000000000
    ∧ (1700000000000 : Int) ≠ (1700000000 : Int)
    ∧ (parseValidDate "not-a-date").value = none
    ∧ (parseValidDate "not-a-date").warnings ≠ [] := by
  refine ⟨?_, by decide, by decide, by decide, by decide, by decide⟩
  intro s h1 h2 h3
  have hd : dateFromMillis ((natOfDigits s : Int) * 1000)
      = some ((natOfDigits s : Int) * 1000) := by
    unfold dateFromMillis
    rw [if_pos ⟨by unfold maxDateMillis; omega, h3⟩]
  unfold parseValidDate
  rw [if_pos ⟨h1, h2⟩]
  show (match dateFromMillis ((natOfDigits s : Int) * 1000) with
      | none => ({ value := none, warnings := ["Invalid Unix timestamp: " ++ s] } : DateParseResult)
      | some v => { value := some v, warnings := [] }).value
    = some ((natOfDigits s : Int) * 1000)
  rw [hd]

/-- C6 witness: the universal part at the concrete seconds string. -/
theorem C6_timestamp_parsing_witness :
    (parseValidDate "1700000000").value = some ((natOfDigits "1700000000" : Int) * 1000) :=
  C6_timestamp_parsing.1 "1700000000" (by decide) (by decide) (by decide)

/-! ### C9: retention cleanup -/

/-- A store with fact, bridge and trading-preferences rows 31 days old
(epoch ms −2678400000) and 29 days old (−2505600000), for `now = 0`. -/
def dbC9 : DB :=
  { DB.empty with
    offers := [mkOfferRow sampleOffer (-2678400000), mkOfferRow sampleOffer (-2505600000)]
    offerPayments := [⟨-2678400000, 101, some 165⟩, ⟨-2505600000, 101, some 165⟩]
    tradingPrefs := [⟨-2678400000, 101, false, false, false, false, 0, 0, some 0, "US"⟩,
                     ⟨-2505600000, 101, false, false, false, false, 0, 0, some 0, "US"⟩] }

/-- C9: cleanup over a horizon of `days` days deletes exactly the
`OfferSnapshot`, `OfferPayment` and `TradingPreferences` rows whose
`fetch_time` is strictly before `now − days` days, using one and the same
cutoff for the dependent tables as for the fact table; with `days = 30` and
`now = 0`, the 31-day-old fact row and its dependent bridge and satellite
rows are removed in the same sweep while the 29-day-old rows are retained. -/
theorem C9_cleanup_cutoff :
    (∀ (now days : Int) (db : DB),
      (∀ r : OfferRow, r ∈ (cleanupOldData now days db).offers ↔
          r ∈ db.offers ∧ ¬(r.fetch_time < now - days * 86400000))
      ∧ (∀ b : BridgeRow, b ∈ (cleanupOldData now days db).offerPayments ↔
          b ∈ db.offerPayments ∧ ¬(b.fetch_time < now - days * 86400000))
      ∧ (∀ p : PrefsRow, p ∈ (cleanupOldData now days db).tradingPrefs ↔
          p ∈ db.tradingPrefs ∧ ¬(p.fetch_time < now - days * 86400000)))
    ∧ (cleanupOldData 0 30 dbC9).offers = [mkOfferRow sampleOffer (-2505600000)]
    ∧ (cleanupOldData 0 30 dbC9).offerPayments = [⟨-2505600000, 101, some 165⟩]
    ∧ (cleanupOldData 0 30 dbC9).tradingPrefs
        = [⟨-2505600000, 101, false, false, false, false, 0, 0, some 0, "US"⟩] := by
  refine ⟨?_, rfl, rfl, rfl⟩
  intro now days db
  unfold cleanupOldData TradingPreferencesModel.deleteOldRecords
    OfferPaymentModel.deleteOldRecords P2POfferModel.deleteOldOffers
  refine ⟨?_, ?_, ?_⟩ <;> intro x <;> simp [List.mem_filter]

/-! ### C8: application-layer referential integrity -/

theorem symbolInfoUpsert_facts (db : DB) (s : SymbolRow) :
    (SymbolInfoModel.upsert db s).offers = db.offers
    ∧ (SymbolInfoModel.upsert db s).offerPayments = db.offerPayments
    ∧ (SymbolInfoModel.upsert db s).tradingPrefs = db.tradingPrefs :=
  ⟨rfl, rfl, rfl⟩

theorem p2pUserUpsert_facts (db : DB) (u : UserRow) :
    (P2PUserModel.upsert db u).offers = db.offers
    ∧ (P2PUserModel.upsert db u).offerPayments = db.offerPayments
    ∧ (P2PUserModel.upsert db u).tradingPrefs = db.tradingPrefs :=
  ⟨rfl, rfl, rfl⟩

theorem assetUpsert_facts (db : DB) (a : AssetRow) :
    (AssetModel.upsert db a).offers = db.offers
    ∧ (AssetModel.upsert db a).offerPayments = db.offerPayments
    ∧ (AssetModel.upsert db a).tradingPrefs = db.tradingPrefs :=
  ⟨rfl, rfl, rfl⟩

/-- Folding payment-method upserts over a record's payment ids touches only
the `payment_methods` table. -/
theorem foldl_pm_facts (l : List String) : ∀ db : DB,
    ((l.foldl (fun d paymentId =>
        PaymentMethodModel.upsert d ⟨parseIntJS paymentId, "Payment Method " ++ paymentId⟩) db)).offers
      = db.offers
    ∧ ((l.foldl (fun d paymentId =>
        PaymentMethodModel.upsert d ⟨parseIntJS paymentId, "Payment Method " ++ paymentId⟩) db)).offerPayments
      = db.offerPayments
    ∧ ((l.foldl (fun d paymentId =>
        PaymentMethodModel.upsert d ⟨parseIntJS paymentId, "Payment Method " ++ paymentId⟩) db)).tradingPrefs
      = db.tradingPrefs := by
  induction l with
  | nil => exact fun db => ⟨rfl, rfl, rfl⟩
  | cons a as ih =>
    intro db
    simpa using ih (PaymentMethodModel.upsert db ⟨parseIntJS a, "Payment Method " ++ a⟩)

/-- The dimension-upsert phase leaves the fact, bridge and satellite tables
unchanged. -/
theorem upsertDimensionData_facts (item : RawOffer) (t : Int) (db : DB) :
    (upsertDimensionData item t db).offers = db.offers
    ∧ (upsertDimensionData item t db).offerPayments = db.offerPayments
    ∧ (upsertDimensionData item t db).tradingPrefs = db.tradingPrefs := by
  unfold upsertDimensionData
  cases hsi : item.symbolInfo with
  | none =>
    simp only [hsi]
    exact foldl_pm_facts item.payments _
  | some si =>
    simp only [hsi]
    exact foldl_pm_facts item.payments _

/-- One `INSERT OR IGNORE` bridge insert leaves the other fact-side tables
unchanged and can only add the given row. -/
theorem OfferPaymentModel.create_facts (db : DB) (bp : BridgeRow) :
    (OfferPaymentModel.create db bp).offers = db.offers
    ∧ (OfferPaymentModel.create db bp).tradingPrefs = db.tradingPrefs
    ∧ ∀ b ∈ (OfferPaymentModel.create db bp).offerPayments,
        b ∈ db.offerPayments ∨ b = bp := by
  unfold OfferPaymentModel.create
  split
  · exact ⟨rfl, rfl, fun b hb => Or.inl hb⟩
  · refine ⟨rfl, rfl, fun b hb => ?_⟩
    rcases List.mem_cons.mp hb with h | h
    · exact Or.inr h
    · exact Or.inl h

/-- Folding the bridge inserts of one record: `p2p_offers` and
`trading_preferences` are untouched, and every bridge row afterwards either
pre-existed or carries the record's `(fetch_time, offer_id)`. -/
theorem foldl_bridge_facts (t oid : Int) (l : List String) : ∀ db : DB,
    ((l.foldl (fun d paymentId =>
        OfferPaymentModel.create d ⟨t, oid, parseIntJS paymentId⟩) db)).offers = db.offers
    ∧ ((l.foldl (fun d paymentId =>
        OfferPaymentModel.create d ⟨t, oid, parseIntJS paymentId⟩) db)).tradingPrefs
      = db.tradingPrefs
    ∧ ∀ b ∈ ((l.foldl (fun d paymentId =>
        OfferPaymentModel.create d ⟨t, oid, parseIntJS paymentId⟩) db)).offerPayments,
        b ∈ db.offerPayments ∨ (b.fetch_time = t ∧ b.offer_id = oid) := by
  induction l with
  | nil => exact fun db => ⟨rfl, rfl, fun b hb => Or.inl hb⟩
  | cons a as ih =>
    intro db
    have hstep := OfferPaymentModel.create_facts db ⟨t, oid, parseIntJS a⟩
    have hfold := ih (OfferPaymentModel.create db ⟨t, oid, parseIntJS a⟩)
    refine ⟨by rw [List.foldl_cons, hfold.1, hstep.1],
            by rw [List.foldl_cons, hfold.2.1, hstep.2.1], ?_⟩
    intro b hb
    rcases hfold.2.2 b hb with h | h
    · rcases hstep.2.2 b h with h2 | h2
      · exact Or.inl h2
      · exact Or.inr (by rw [h2]; exact ⟨rfl, rfl⟩)
    · exact Or.inr h

/-- Structure of a successful `insertFactData` call: the fact table gains
exactly the record's row, and every bridge or satellite row afterwards either
pre-existed or carries the record's `(fetch_time, offer_id)`. -/
theorem insertFactData_ok (item : RawOffer) (t : Int) (db db1 : DB)
    (h : insertFactData item t db = (db1, none)) :
    db1.offers = mkOfferRow item t :: db.offers
    ∧ (∀ b ∈ db1.offerPayments,
        b ∈ db.offerPayments ∨ (b.fetch_time = t ∧ b.offer_id = item.id))
    ∧ (∀ p ∈ db1.tradingPrefs,
        p ∈ db.tradingPrefs ∨ (p.fetch_time = t ∧ p.offer_id = item.id)) := by
  unfold insertFactData at h
  rcases hc : P2POfferModel.create db (mkOfferRow item t) with e | dbA
  · rw [hc] at h
    have := congrArg Prod.snd h
    simp at this
  · rw [hc] at h
    have hA : dbA = { db with offers := mkOfferRow item t :: db.offers } := by
      unfold P2POfferModel.create at hc
      split at hc
      · exact absurd hc (by simp)
      · exact (Except.ok.injEq _ _ ▸ hc).symm
    have hfold := foldl_bridge_facts t item.id item.payments dbA
    set dbB := item.payments.foldl
      (fun d paymentId => OfferPaymentModel.create d ⟨t, item.id, parseIntJS paymentId⟩) dbA
      with hdbB
    have hdb1 : db1 = (match item.tradingPreferenceSet with
        | some tp => TradingPreferencesModel.create dbB (mkPrefsRow tp item.id t)
        | none => dbB) :=
      ((Prod.mk.injEq _ _ _ _ ▸ h).1).symm
    cases htp : item.tradingPreferenceSet with
    | none =>
      rw [htp] at hdb1
      refine ⟨?_, ?_, ?_⟩
      · rw [hdb1, hfold.1, hA]
      · intro b hb
        rw [hdb1] at hb
        rcases hfold.2.2 b hb with hmem | hkey
        · rw [hA] at hmem
          exact Or.inl hmem
        · exact Or.inr hkey
      · intro p hp
        rw [hdb1, hfold.2.1, hA] at hp
        exact Or.inl hp
    | some tp =>
      rw [htp] at hdb1
      refine ⟨?_, ?_, ?_⟩
      · rw [hdb1]
        show dbB.offers = _
        rw [hfold.1, hA]
      · intro b hb
        rw [hdb1] at hb
        have hb2 : b ∈ dbB.offerPayments := hb
        rcases hfold.2.2 b hb2 with hmem | hkey
        · rw [hA] at hmem
          exact Or.inl hmem
        · exact Or.inr hkey
      · intro p hp
        rw [hdb1] at hp
        rcases List.mem_cons.mp hp with hnew | hold
        · exact Or.inr (by rw [hnew]; exact ⟨rfl, rfl⟩)
        · have := List.mem_filter.mp hold
          rw [hfold.2.1, hA] at this
          exact Or.inl this.1

/-- A successfully processed record preserves referential integrity: its
dimensions are written before its fact row, and its fact row before its
bridge and satellite rows, all sharing the record's `(fetch_time, offer_id)`. -/
theorem processRecord_preserves_refIntegrity (db : DB) (t : Int) (item : RawOffer) (dbx : DB)
    (h : processRecord db t item = (dbx, none)) (hri : refIntegrity db) :
    refIntegrity dbx := by
  have hdim := upsertDimensionData_facts item t db
  have hok : insertFactData item t (upsertDimensionData item t db) = (dbx, none) := h
  have hstruct := insertFactData_ok item t (upsertDimensionData item t db) dbx hok
  constructor
  · intro bp hbp
    rcases hstruct.2.1 bp hbp with hold | hkey
    · rw [hdim.2.1] at hold
      rcases hri.1 bp hold with ⟨r, hr, hr1, hr2⟩
      refine ⟨r, ?_, hr1, hr2⟩
      rw [hstruct.1, hdim.1]
      exact List.mem_cons_of_mem _ hr
    · refine ⟨mkOfferRow item t, ?_, hkey.1.symm, hkey.2.symm⟩
      rw [hstruct.1]
      exact List.mem_cons_self _ _
  · intro tp htp
    rcases hstruct.2.2 tp htp with hold | hkey
    · rw [hdim.2.2] at hold
      rcases hri.2 tp hold with ⟨r, hr, hr1, hr2⟩
      refine ⟨r, ?_, hr1, hr2⟩
      rw [hstruct.1, hdim.1]
      exact List.mem_cons_of_mem _ hr
    · refine ⟨mkOfferRow item t, ?_, hkey.1.symm, hkey.2.symm⟩
      rw [hstruct.1]
      exact List.mem_cons_self _ _

/-- C8: after every successfully processed page prefix (hence after every
successfully persisted record), every `OfferPayment` and every
`TradingPreferences` row references an existing `OfferSnapshot` fact row with
the same `(fetch_time, offer_id)`. -/
theorem C8_referential_integrity (t : Int) :
    ∀ (items : List RawOffer) (db db1 : DB),
      processPage t db items = (db1, none) → refIntegrity db → refIntegrity db1 := by
  intro items
  induction items with
  | nil =>
    intro db db1 h hri
    have : db = db1 := congrArg Prod.fst h
    exact this ▸ hri
  | cons item rest ih =>
    intro db db1 h hri
    rcases hrec : processRecord db t item with ⟨dbx, err⟩
    cases err with
    | none =>
      have hpage : processPage t db (item :: rest) = processPage t dbx rest := by
        simp only [processPage, hrec]
      rw [hpage] at h
      exact ih dbx db1 h (processRecord_preserves_refIntegrity db t item dbx hrec hri)
    | some e =>
      have hpage : processPage t db (item :: rest) = (dbx, some e) := by
        simp only [processPage, hrec]
      rw [hpage] at h
      have := congrArg Prod.snd h
      simp at this

/-- C8 witness: a concrete page processed from an empty (trivially
consistent) store yields a consistent store. -/
theorem C8_referential_integrity_witness :
    refIntegrity (processPage 1000 DB.empty [sampleOffer]).1 :=
  C8_referential_integrity 1000 [sampleOffer] DB.empty
    (processPage 1000 DB.empty [sampleOffer]).1 rfl
    ⟨fun bp hbp => absurd hbp (List.not_mem_nil bp),
     fun tp htp => absurd htp (List.not_mem_nil tp)⟩

/-! ### C3: the market-summary spread -/

/-- A fact row for the market-summary examples: the sample row with the given
fetch time, offer id, side and price. -/
def mkSummaryRow (ft oid sd : Int) (pr : ℚ) : OfferRow :=
  { mkOfferRow sampleOffer ft with offer_id := oid, side := sd, price := some pr }

/-- The store of the C3 example: BUY rows priced 1.00 and 1.02, SELL rows
priced 1.05 and 1.08, all bridged to TBC Bank and inside the summary window
for `now = 4000`. -/
def dbC3 : DB :=
  { DB.empty with
    offers := [mkSummaryRow 4000 1 1 1, mkSummaryRow 3000 2 1 (51 / 50),
               mkSummaryRow 2000 3 0 (21 / 20), mkSummaryRow 1000 4 0 (27 / 25)]
    offerPayments := [⟨4000, 1, some 165⟩, ⟨3000, 2, some 165⟩,
                      ⟨2000, 3, some 165⟩, ⟨1000, 4, some 165⟩]
    paymentMethods := [⟨some 165, "Payment Method 165"⟩] }

/-- C3: the summary's spread equals
`(min(SELL price) − max(BUY price)) / max(BUY price) × 100` exactly when both
group extremes are strictly positive, and is exactly 0 otherwise — in
particular whenever either side's group is empty; on BUY prices 1.00, 1.02 and
SELL prices 1.05, 1.08 the spread is `50/17 ≈ 2.94`. -/
theorem C3_spread_formula :
    (∀ (tokenId currencyId : String) (now : Int) (db : DB),
      (jsGt (getMarketSummary tokenId currencyId now db).sell_min 0 = true →
        jsGt (getMarketSummary tokenId currencyId now db).buy_max 0 = true →
        (getMarketSummary tokenId currencyId now db).spread
          = jsMul (jsDiv
              (jsSub (getMarketSummary tokenId currencyId now db).sell_min
                (getMarketSummary tokenId currencyId now db).buy_max)
              (getMarketSummary tokenId currencyId now db).buy_max) (some 100))
      ∧ (¬(jsGt (getMarketSummary tokenId currencyId now db).sell_min 0 = true
            ∧ jsGt (getMarketSummary tokenId currencyId now db).buy_max 0 = true) →
          (getMarketSummary tokenId currencyId now db).spread = some 0)
      ∧ ((getMarketSummary tokenId currencyId now db).buy_count = 0 →
          (getMarketSummary tokenId currencyId now db).spread = some 0)
      ∧ ((getMarketSummary tokenId currencyId now db).sell_count = 0 →
          (getMarketSummary tokenId currencyId now db).spread = some 0))
    ∧ (getMarketSummary "USDT" "USD" 4000 dbC3).spread = some (50 / 17) := by
  constructor
  · intro tokenId currencyId now db
    simp only [getMarketSummary]
    refine ⟨?_, ?_, ?_, ?_⟩
    · intro h1 h2
      rw [if_pos (by rw [Bool.and_eq_true]; exact ⟨h1, h2⟩)]
    · intro hn
      rw [if_neg (by rw [Bool.and_eq_true]; exact hn)]
    · intro hc
      rw [List.length_eq_zero] at hc
      rw [hc]
      have : groupMax ([] : List OfferRow) = some 0 := rfl
      rw [this]
      simp [jsGt]
    · intro hc
      rw [List.length_eq_zero] at hc
      rw [hc]
      have : groupMin ([] : List OfferRow) = some 0 := rfl
      rw [this]
      simp [jsGt]
  · have htbc : OfferPaymentModel.getOffersByPaymentMethod dbC3 165 1000
        = [mkSummaryRow 4000 1 1 1, mkSummaryRow 3000 2 1 (51 / 50),
           mkSummaryRow 2000 3 0 (21 / 20), mkSummaryRow 1000 4 0 (27 / 25)] := rfl
    have hbuy : [mkSummaryRow 4000 1 1 1, mkSummaryRow 3000 2 1 (51 / 50),
           mkSummaryRow 2000 3 0 (21 / 20), mkSummaryRow 1000 4 0 (27 / 25)].filter
          (summaryFilter "USDT" "USD" TRADE_SIDE.BUY (4000 - 24 * 60 * 60 * 1000) 4000)
        = [mkSummaryRow 4000 1 1 1, mkSummaryRow 3000 2 1 (51 / 50)] := rfl
    have hsell : [mkSummaryRow 4000 1 1 1, mkSummaryRow 3000 2 1 (51 / 50),
           mkSummaryRow 2000 3 0 (21 / 20), mkSummaryRow 1000 4 0 (27 / 25)].filter
          (summaryFilter "USDT" "USD" TRADE_SIDE.SELL (4000 - 24 * 60 * 60 * 1000) 4000)
        = [mkSummaryRow 2000 3 0 (21 / 20), mkSummaryRow 1000 4 0 (27 / 25)] := rfl
    simp only [getMarketSummary, htbc, hbuy, hsell]
    norm_num [groupMin, groupMax, listMin, listMax, jsMin, jsMax, jsGt, jsSub, jsDiv, jsMul,
      mkSummaryRow, min_def, max_def]

/-- C3 witness: with an empty store the BUY group is empty and the spread is
reported as 0. -/
theorem C3_spread_formula_witness :
    (getMarketSummary "USDT" "USD" 0 DB.empty).spread = some 0 :=
  (C3_spread_formula.1 "USDT" "USD" 0 DB.empty).2.2.1 rfl

/-! ### C10: the summary reads at most the 1000 most recent joined rows -/

/-- The i-th fact row of the C10 example: BUY side, fetch time `T − i` for
`T = 1700000000000`, all inside the 24-hour window. -/
def c10Row (i : Nat) : OfferRow :=
  { mkOfferRow sampleOffer (1700000000000 - (i : Int)) with offer_id := (i : Int) + 1 }

/-- The bridge row joining the i-th fact row to TBC Bank. -/
def c10Bridge (i : Nat) : BridgeRow := ⟨1700000000000 - (i : Int), (i : Int) + 1, some 165⟩

/-- A store with 1001 matching BUY rows, every one bridged to TBC Bank and
inside the trailing 24-hour window for `now = 1700000000000`. -/
def dbC10 : DB :=
  { DB.empty with
    offers := (List.range 1001).map c10Row
    offerPayments := (List.range 1001).map c10Bridge
    paymentMethods := [⟨some 165, "Payment Method 165"⟩] }

theorem insertDesc_mem (x r : OfferRow) (l : List OfferRow) :
    x ∈ insertDesc r l ↔ x = r ∨ x ∈ l := by
  induction l with
  | nil => simp [insertDesc]
  | cons a as ih =>
    unfold insertDesc
    split
    · rw [List.mem_cons, ih, List.mem_cons]
      tauto
    · rw [List.mem_cons, List.mem_cons]

theorem sortDesc_mem (x : OfferRow) (l : List OfferRow) : x ∈ sortDesc l ↔ x ∈ l := by
  induction l with
  | nil => simp [sortDesc]
  | cons a as ih =>
    unfold sortDesc
    rw [insertDesc_mem, ih, List.mem_cons]

theorem insertDesc_length (r : OfferRow) (l : List OfferRow) :
    (insertDesc r l).length = l.length + 1 := by
  induction l with
  | nil => rfl
  | cons a as ih =>
    unfold insertDesc
    split
    · simp [ih]
    · simp

theorem sortDesc_length (l : List OfferRow) : (sortDesc l).length = l.length := by
  induction l with
  | nil => rfl
  | cons a as ih =>
    unfold sortDesc
    rw [insertDesc_length, ih, List.length_cons]

/-- Every offer row of the C10 store passes the bridge/payment-method join. -/
theorem dbC10_join_eq : joinedTbcOffers dbC10 165 = dbC10.offers := by
  apply List.filter_eq_self.mpr
  intro o ho
  rcases List.mem_map.mp ho with ⟨i, hi, rfl⟩
  rw [Bool.and_eq_true]
  constructor
  · refine List.any_eq_true.mpr ⟨c10Bridge i, List.mem_map.mpr ⟨i, hi, rfl⟩, ?_⟩
    simp [c10Bridge, c10Row, mkOfferRow]
  · exact List.any_eq_true.mpr ⟨⟨some 165, "Payment Method 165"⟩, List.mem_cons_self _ _,
      by simp⟩

/-- C10: the market summary reads at most the 1000 most recent bridge-joined
rows — both group counts are always at most 1000 — and in the 1001-row store
`dbC10` every joined row matches the BUY window predicate, yet the summary
counts only 1000 of them: one matching in-window row is silently excluded
from the groups. -/
theorem C10_summary_limited_to_1000 :
    (∀ (tokenId currencyId : String) (now : Int) (db : DB),
        (getMarketSummary tokenId currencyId now db).buy_count ≤ 1000
        ∧ (getMarketSummary tokenId currencyId now db).sell_count ≤ 1000)
    ∧ (joinedTbcOffers dbC10 165).length = 1001
    ∧ (∀ r ∈ joinedTbcOffers dbC10 165,
        summaryFilter "USDT" "USD" TRADE_SIDE.BUY (1700000000000 - 24 * 60 * 60 * 1000)
          1700000000000 r = true)
    ∧ (getMarketSummary "USDT" "USD" 1700000000000 dbC10).buy_count = 1000 := by
  have hmatch : ∀ r ∈ joinedTbcOffers dbC10 165,
      summaryFilter "USDT" "USD" TRADE_SIDE.BUY (1700000000000 - 24 * 60 * 60 * 1000)
        1700000000000 r = true := by
    intro r hr
    rw [dbC10_join_eq] at hr
    rcases List.mem_map.mp hr with ⟨i, hi, rfl⟩
    have hi2 : i < 1001 := List.mem_range.mp hi
    simp only [summaryFilter, c10Row, mkOfferRow, TRADE_SIDE.BUY, Bool.and_eq_true, beq_iff_eq,
      decide_eq_true_eq]
    refine ⟨⟨⟨⟨rfl, rfl⟩, rfl⟩, by omega⟩, by omega⟩
  refine ⟨?_, ?_, hmatch, ?_⟩
  · intro tokenId currencyId now db
    simp only [getMarketSummary]
    constructor
    all_goals
      refine le_trans (List.length_filter_le _ _) ?_
      unfold OfferPaymentModel.getOffersByPaymentMethod
      rw [List.length_take]
      exact min_le_left _ _
  · rw [dbC10_join_eq]
    show ((List.range 1001).map c10Row).length = 1001
    rw [List.length_map, List.length_range]
  · simp only [getMarketSummary, OfferPaymentModel.getOffersByPaymentMethod]
    rw [List.filter_eq_self.mpr (fun r hr =>
      hmatch r (sortDesc_mem r _ |>.mp (List.take_subset _ _ hr)))]
    rw [List.length_take, sortDesc_length, dbC10_join_eq]
    show min 1000 ((List.range 1001).map c10Row).length = 1000
    rw [List.length_map, List.length_range]
    omega

/-- C10 witness: the count bound at a concrete store, and the matching
predicate discharged at the newest example row. -/
theorem C10_summary_limited_to_1000_witness :
    (getMarketSummary "USDT" "USD" 0 DB.empty).buy_count ≤ 1000
    ∧ summaryFilter "USDT" "USD" TRADE_SIDE.BUY (1700000000000 - 24 * 60 * 60 * 1000)
        1700000000000 (c10Row 0) = true :=
  ⟨(C10_summary_limited_to_1000.1 "USDT" "USD" 0 DB.empty).1,
   C10_summary_limited_to_1000.2.2.1 (c10Row 0) (by
      rw [dbC10_join_eq]
      exact List.mem_map.mpr ⟨0, List.mem_range.mpr (by omega), rfl⟩)⟩

end BybitP2P
